import Mathlib

/-
Verification of the build/upload orchestration engine of vscode-arduino
(src/arduino/arduino.ts) against its natural-language specification.

The TypeScript class ArduinoApp is shallowly embedded: each method becomes a
pure Lean function from its inputs and the outcomes of its collaborators
(filesystem, serial-port enumeration, subprocess exit codes) to the list of
observable actions it performs (output-channel messages, spawns, delays,
listener pause/resume, serial-port open/close) together with its result.
JavaScript exceptions are modelled with Except: a thrown error short-circuits
the remainder of the function, exactly as an uncaught exception does after an
await. Collaborators that live outside the source file (util, vscode,
SerialPortCtrl, the Properties class) are modelled as oracle inputs or, where
the spec describes them, as definitions marked "Modelled from the spec".
-/

/-- Newline appended by the source via os.EOL. -/
def eol : String := "\n"

/-- Models Node path.join for the simple segment joins used by the source. -/
def pathJoin2 (a b : String) : String := a ++ "/" ++ b

/-- Models Node path.join over a list of segments. -/
def pathJoin (parts : List String) : String := String.intercalate "/" parts

/-- Models path.basename: the last slash-separated component. -/
def baseName (s : String) : String := (s.splitOn "/").reverse.headD s

/-- Value of a JavaScript variable of declared type string or null: the three
runtime possibilities are null, undefined and an actual string. The
distinction between null and undefined matters at arduino.ts:511, where the
timeout path of waitForUploadPort resolves to undefined while the test is
a strict comparison with null. -/
inductive JsStr
  | null
  | undef
  | str (s : String)
deriving DecidableEq, Repr

/-- Coercion a JavaScript string concatenation applies to a possibly-undefined
value: undefined prints as the string undefined. -/
def jsAsStr (v : Option String) : String :=
  match v with
  | some s => s
  | none => "undefined"

/-- Observable actions of ArduinoApp: output-channel traffic, user
notifications, subprocess spawns, serial-port manipulation, the hotplug
listener pause/resume, and the fixed delays. The post-upload wait loop
(arduino.ts:472-483) is summarized as a single waitForPort action since no
claim depends on its internals. -/
inductive Act
  | notifyUserError (ctx msg : String)
  | showWarning (msg : String)
  | showError (msg : String)
  | saveAll
  | spawnP (exe : String) (args : List String) (cwd : Option String)
  | chanShow
  | chanStart (s : String)
  | chanEnd (s : String)
  | chanError (s : String)
  | info (s : String)
  | pauseListening
  | resumeListening
  | closeMonitor (port : String)
  | openMonitor
  | listPorts
  | delay (ms : Nat)
  | openPort (port : String) (baud : Nat)
  | stopPort
  | loadFile (path : String)
  | mkdir (path : String)
  | waitForPort (port : String)
deriving DecidableEq, Repr

/-- Modelled from the spec: the Properties class (common/Properties.ts) is not
under src; spec section 4.1 describes an ordered mapping from dotted string
keys to string values with last-wins set/merge and prefix extraction. Entries
are kept newest-first so that get returns the value of the latest set. A
stored value of none models a JavaScript undefined written by set (a Map
returns undefined both for an absent key and for a stored undefined). -/
structure Properties where
  entries : List (String × Option String)
deriving DecidableEq, Repr

namespace Properties

/-- Modelled from the spec: get on a missing key returns an absent value. -/
def get (ps : Properties) (k : String) : Option String :=
  match ps.entries.find? (fun e => e.1 == k) with
  | some e => e.2
  | none => none

/-- Modelled from the spec: set overwrites the key (last-wins). -/
def set (ps : Properties) (k : String) (v : Option String) : Properties :=
  ⟨(k, v) :: ps.entries⟩

/-- Modelled from the spec: merge applies the keys of other on top of the
receiver, overwriting duplicates (last-wins). -/
def merge (ps other : Properties) : Properties :=
  ⟨other.entries ++ ps.entries⟩

/-- Modelled from the spec: keys prefix.rest are renamed to rest; keys not
matching the prefix are dropped. -/
def extractWithPrefix (ps : Properties) (p : String) : Properties :=
  ⟨(ps.entries.filter (fun e => (p ++ ".").isPrefixOf e.1)).map
    (fun e => (e.1.drop (p.length + 1), e.2))⟩

/-- Empty property set. -/
def empty : Properties := ⟨[]⟩

end Properties

/-- Paths and derived settings of IArduinoSettings used by the engine. The
toolProperties layer is the user/tool override PropertySet merged last by the
pattern-driven upload. -/
structure Settings where
  arduinoPath : String
  packagePath : String
  defaultPackagePath : String
  sketchbookPath : String
  commandPath : String
  builderPath : String
  toolProperties : Properties

/-- Fields of boardManager.currentBoard read by the engine: getBuildConfig
(the fully qualified board string), getPackageName, platform.architecture and
the board id used for prefix extraction from boards.txt. -/
structure Board where
  buildConfig : String
  packageName : String
  architecture : String
  boardId : String

/-- Outcomes of the Node filesystem calls made by resolvePackagePath.
lstatIsDir p is none when fs.lstatSync p throws (path absent) and some b when
it returns a stat whose isDirectory() would return b. readdir p is none when
fs.readdirSync p throws and otherwise the directory listing in enumeration
order. -/
structure NodeFs where
  lstatIsDir : String → Option Bool
  readdir : String → Option (List String)

/-- Device context fields read by verify/upload. An empty string models a
falsy (unset) value, matching the JavaScript truthiness tests in the source. -/
structure Dc where
  sketch : String
  port : String
  output : String

/-- Install arduino board package (arduino.ts:246-276). The exitCode input is
the exit code of the spawned toolchain installer; util.spawn resolves on exit
code 0 and rejects with the code attached otherwise. The returned list is the
trace of observable actions. -/
def installBoard (commandPath packageName arch version : String)
    (exitCode : Nat) : List Act :=
  let updatingIndex := packageName == "dummy" && arch == "" && version == ""
  let startAct :=
    if updatingIndex then Act.chanStart "Update package index files..."
    else Act.chanStart ("Install package - " ++ packageName ++ "...")
  let doneAct :=
    if updatingIndex then Act.chanEnd "Updated package index files."
    else Act.chanEnd ("Installed board package - " ++ packageName ++ eol)
  let spec := packageName ++ (if arch == "" then "" else ":" ++ arch)
      ++ (if version == "" then "" else ":" ++ version)
  let sp := Act.spawnP commandPath ["--install-boards", spec] none
  if exitCode == 0 then
    [Act.chanShow, startAct, sp, doneAct]
  else if exitCode == 1 then
    -- caught: exit code 1 means the package is already installed; the same
    -- success message is emitted (arduino.ts:264-271)
    [Act.chanShow, startAct, sp, doneAct]
  else
    [Act.chanShow, startAct, sp,
      Act.chanError ("Exit with code=" ++ toString exitCode ++ eol)]

/-- Install arduino library (arduino.ts:284-314), same exit-code convention
as installBoard. -/
def installLibrary (commandPath libName version : String)
    (exitCode : Nat) : List Act :=
  let updatingIndex := libName == "dummy" && version == ""
  let startAct :=
    if updatingIndex then Act.chanStart "Update library index files..."
    else Act.chanStart ("Install library - " ++ libName)
  let doneAct :=
    if updatingIndex then Act.chanEnd "Updated library index files."
    else Act.chanEnd ("Installed library - " ++ libName ++ eol)
  let spec := libName ++ (if version == "" then "" else ":" ++ version)
  let sp := Act.spawnP commandPath ["--install-library", spec] none
  if exitCode == 0 then
    [Act.chanShow, startAct, sp, doneAct]
  else if exitCode == 1 then
    [Act.chanShow, startAct, sp, doneAct]
  else
    [Act.chanShow, startAct, sp,
      Act.chanError ("Exit with code=" ++ toString exitCode ++ eol)]

/-- Value of the expression stat.isDirectory at arduino.ts:525. The source
reads the property without invoking it; on a Node fs.Stats object the
property is a method, so the reference is truthy for every stat, whatever
isDirectory() would have returned. -/
def statIsDirectoryRef (_isDir : Bool) : Bool := true

/-- Embeds resolvePackagePath (arduino.ts:518-545): first the built-in
candidate defaultPackagePath/packager/arch guarded by the (always-truthy)
stat.isDirectory reference, then the first entry of the user-installed
versioned directory, else null. -/
def resolvePackagePath (nfs : NodeFs)
    (defaultPackagePath packagePath packager arch : String) : Option String :=
  let builtInPath := pathJoin [defaultPackagePath, packager, arch]
  let viaBuiltin :=
    match nfs.lstatIsDir builtInPath with
    | some st => statIsDirectoryRef st
    | none => false
  if viaBuiltin then some builtInPath
  else
    let externalPath := pathJoin [packagePath, "packages", packager, "hardware", arch]
    match nfs.readdir externalPath with
    | some (version :: _) => some (pathJoin2 externalPath version)
    | _ => none

/-- Modelled from the spec: resolvePlatformPath as section 4.3 states it —
the built-in candidate is returned exactly when it exists and is a directory
(isDirectory() actually consulted); only otherwise the user-installed
versioned directory. Kept beside resolvePackagePath to compare the source
against the specified behavior. -/
def resolvePlatformPathSpec (nfs : NodeFs)
    (defaultPackagePath packagePath packager arch : String) : Option String :=
  let builtInPath := pathJoin [defaultPackagePath, packager, arch]
  let viaBuiltin :=
    match nfs.lstatIsDir builtInPath with
    | some st => st
    | none => false
  if viaBuiltin then some builtInPath
  else
    let externalPath := pathJoin [packagePath, "packages", packager, "hardware", arch]
    match nfs.readdir externalPath with
    | some (version :: _) => some (pathJoin2 externalPath version)
    | _ => none

/-- Loop body of waitForUploadPort (arduino.ts:453-470). polls i is the
enumeration returned by the SerialPortCtrl.list() call of iteration i; the
before argument is compared against, and is replaced by the latest poll on
every iteration (the source reassigns before = now). The elapsed counter of
iteration i is i * 250 at the loop guard and (i + 1) * 250 at the fallback
test, so the guard admits 40 iterations and the fallback arms from iteration
19 on. The none result models the implicit return (undefined) after the
10-second window. -/
def wfupGo (uploadPort : String) (polls : Nat → List String) :
    List String → Nat → Nat → Option String
  | _, _, 0 => none
  | before, i, fuel + 1 =>
    match (polls i).find? (fun p => !(before.contains p)) with
    | some p => some p
    | none =>
      if decide (5000 ≤ (i + 1) * 250) && (polls i).contains uploadPort then
        some uploadPort
      else
        wfupGo uploadPort polls (polls i) (i + 1) fuel

/-- Embeds waitForUploadPort (arduino.ts:453-470): poll every 250ms while
elapsed < 10000, returning the first ported identifier absent from the
previous enumeration, or the original port once 5000ms have elapsed and it is
enumerated again; none (undefined) after the full window. -/
def waitForUploadPort (uploadPort : String) (polls : Nat → List String)
    (before : List String) : Option String :=
  wfupGo uploadPort polls before 0 40

/-- Null-collapse at arduino.ts:511-513: a strict comparison with null, so an
undefined value does not fall back to the configured port. -/
def finalizePort (dcPort : String) (v : JsStr) : JsStr :=
  if v == JsStr.null then JsStr.str dcPort else v

/-- Tail of prepareUploadPort after the touch (arduino.ts:504-515): the
optional reappearance wait with its 250ms delay, the final 400ms delay and
the null test. Before the wait, actualUploadPort is null; the wait stores the
waitForUploadPort result, which is undefined on timeout. -/
def prepareTail (waitFlag : Bool) (dcPort : String) (before : List String)
    (polls : Nat → List String) : List Act × JsStr :=
  if waitFlag then
    let v :=
      match waitForUploadPort dcPort (fun i => polls (i + 1)) before with
      | some p => JsStr.str p
      | none => JsStr.undef
    ([Act.delay 250, Act.delay 400], finalizePort dcPort v)
  else
    ([Act.delay 400], finalizePort dcPort JsStr.null)

/-- Embeds prepareUploadPort (arduino.ts:485-516). polls 0 is the before
snapshot; subsequent indices are the enumeration returned to each poll of
waitForUploadPort. openResult is the outcome of SerialPortCtrl.open at 1200
baud; the try/finally at arduino.ts:497-501 runs stop on both outcomes and
then lets an open error propagate, skipping the rest of the function. -/
def prepareUploadPort (props : Properties) (dcPort : String)
    (polls : Nat → List String) (verbose : Bool)
    (openResult : Except String Unit) : List Act × Except String JsStr :=
  let doTouch := props.get "upload.use_1200bps_touch" == some "true"
  let waitFlag := props.get "upload.wait_for_upload_port" == some "true"
  if doTouch then
    let before := polls 0
    if before.contains dcPort then
      let infoActs :=
        if verbose then
          [Act.info ("Forcing reset using 1200bps open/close on port " ++ dcPort)]
        else []
      match openResult with
      | Except.error e =>
        ([Act.listPorts] ++ infoActs ++ [Act.openPort dcPort 1200, Act.stopPort],
          Except.error e)
      | Except.ok _ =>
        let tail := prepareTail waitFlag dcPort before polls
        ([Act.listPorts] ++ infoActs
            ++ [Act.openPort dcPort 1200, Act.stopPort, Act.delay 400] ++ tail.1,
          Except.ok tail.2)
    else
      let tail := prepareTail waitFlag dcPort before polls
      ([Act.listPorts, Act.delay 400] ++ tail.1, Except.ok tail.2)
  else
    ([Act.delay 400], Except.ok (finalizePort dcPort JsStr.null))

/-- Embeds arduino.ts:601-606: store serial.port, then branch on
actualUploadPort.startsWith; reading startsWith off a non-string value throws
a TypeError which propagates out of uploadByPattern. -/
def setSerialPort (props : Properties) (v : JsStr) : Except String Properties :=
  let withPort := props.set "serial.port"
    (match v with | JsStr.str s => some s | _ => none)
  match v with
  | JsStr.str s =>
    if s.startsWith "/dev/" then
      Except.ok (withPort.set "serial.port.file" (some (s.drop 5)))
    else
      Except.ok (withPort.set "serial.port.file" (some s))
  | _ => Except.error "TypeError: cannot read startsWith of a non-string"

/-- Stands for constants.messages.NO_BOARD_SELECTED (the constants module is
not under src; the exact text is irrelevant to every claim). -/
def noBoardSelectedMsg : String := "NO_BOARD_SELECTED"

/-- Collaborator oracles and settings shared by the verify/upload pipelines.
uploadCmdArgs and verifyCmdArgs are the results of util.splitArgs on the
configured command strings; resolvedSketch is dc.sketch after
dc.resolveMainSketch, with the empty string for none found; polls enumerates
the successive SerialPortCtrl.list() snapshots (comName fields); exitCode is
the exit code of the one subprocess a pipeline run spawns. -/
structure Env where
  settings : Settings
  currentBoard : Option Board
  rootPath : String
  builder : String
  logLevel : String
  uploadCmdArgs : List String
  verifyCmdArgs : List String
  fileExists : String → Bool
  dirExists : String → Bool
  nfs : NodeFs
  platformTxt : Properties
  boardsTxt : Properties
  resolvedSketch : String
  polls : Nat → List String
  openResult : Except String Unit
  splitArgs : Option String → List String
  needRestore : Bool
  exitCode : Nat

/-- Embeds verifyByCommand (arduino.ts:644-658): spawn the user verify
command inside the project root; a rejection is caught, logged with its exit
code and turned into false. -/
def verifyByCommand (env : Env) (sketch : String) : List Act × Bool :=
  let pre := [Act.chanStart ("Verify sketch - " ++ sketch), Act.chanShow,
    Act.spawnP (env.verifyCmdArgs.headD "") (env.verifyCmdArgs.drop 1)
      (some env.rootPath)]
  if env.exitCode == 0 then
    (pre ++ [Act.chanEnd ("Finished verify sketch - " ++ sketch ++ eol)], true)
  else
    (pre ++ [Act.chanError ("Exit with code=" ++ toString env.exitCode ++ eol)],
      false)

/-- Embeds verifyByArduinoBuilder (arduino.ts:660-709): compose the
arduino-builder argument list from the hardware/tools/libraries directories
that exist, spawn it, and map the exit code to a boolean by the same
try/catch as verifyByCommand. -/
def verifyByArduinoBuilder (env : Env) (boardDescriptor sketch outputArg dcOutput :
    String) : List Act × Bool :=
  let st := env.settings
  let appPath := pathJoin2 env.rootPath sketch
  let hw := [st.defaultPackagePath, pathJoin2 st.packagePath "packages",
    pathJoin2 st.sketchbookPath "packages"]
  let tools := [pathJoin2 st.arduinoPath "tools-builder",
    pathJoin [st.defaultPackagePath, "tools", "avr"],
    pathJoin2 st.packagePath "packages"]
  let libp := pathJoin2 st.sketchbookPath "libraries"
  let args := ["-compile"]
    ++ (hw.filter env.dirExists).flatMap (fun p => ["-hardware", p])
    ++ (tools.filter env.dirExists).flatMap (fun p => ["-tools", p])
    ++ ["-built-in-libraries", pathJoin2 st.arduinoPath "libraries"]
    ++ (if env.dirExists libp then ["-libraries", libp] else [])
    ++ ["-fqbn", boardDescriptor]
  let outSpec := if outputArg == "" then dcOutput else outputArg
  let preActs :=
    if outSpec == "" then
      [Act.showWarning "No output folder specified. Output to a temporary folder."]
    else [Act.mkdir (pathJoin2 env.rootPath outSpec)]
  let args :=
    args ++ (if outSpec == "" then [] else
      ["-build-path", pathJoin2 env.rootPath outSpec])
    ++ (if env.logLevel == "verbose" then ["-verbose"] else [])
    ++ ["-logger", "humantags", appPath]
  let pre := [Act.chanStart ("Verify sketch - " ++ sketch)] ++ preActs
    ++ [Act.chanShow, Act.spawnP st.builderPath args none]
  if env.exitCode == 0 then
    (pre ++ [Act.chanEnd ("Finished verify sketch - " ++ sketch ++ eol)], true)
  else
    (pre ++ [Act.chanError ("Exit with code=" ++ toString env.exitCode ++ eol)],
      false)

/-- Embeds verifyByArduinoIde (arduino.ts:711-733). -/
def verifyByArduinoIde (env : Env) (boardDescriptor sketch outputArg dcOutput :
    String) : List Act × Bool :=
  let appPath := pathJoin2 env.rootPath sketch
  let outSpec := if outputArg == "" then dcOutput else outputArg
  let args := ["--verify", "--board", boardDescriptor, appPath]
    ++ (if env.logLevel == "verbose" then ["--verbose"] else [])
    ++ (if outSpec == "" then [] else
      ["--pref", "build.path=" ++ pathJoin2 env.rootPath outSpec])
  let pre := [Act.chanStart ("Verify sketch - " ++ sketch), Act.chanShow,
    Act.spawnP env.settings.commandPath args none]
  if env.exitCode == 0 then
    (pre ++ [Act.chanEnd ("Finished verify sketch - " ++ sketch ++ eol)], true)
  else
    (pre ++ [Act.chanError ("Exit with code=" ++ toString env.exitCode ++ eol)],
      false)

/-- Sketch-resolution step shared by verify and upload (arduino.ts:107-109,
138-140 and getMainSketch at 445-451): when dc.sketch is unset or its file is
missing, resolveMainSketch runs and a still-unset sketch aborts with a thrown
error after a user-visible message. -/
def resolveSketchStep (env : Env) (dc : Dc) : List Act × Except String String :=
  if dc.sketch == "" || !env.fileExists (pathJoin2 env.rootPath dc.sketch) then
    if env.resolvedSketch == "" then
      ([Act.showError
          "No sketch file was found. Please specify the sketch in the arduino.json file"],
        Except.error "No sketch file was found.")
    else ([], Except.ok env.resolvedSketch)
  else ([], Except.ok dc.sketch)

/-- Embeds verify (arduino.ts:126-151): board check, root check, sketch
resolution, saveAll, then strategy dispatch on the builder setting. The ok
none result models the bare returns of the abort paths; ok (some b) carries
the boolean a strategy returns. -/
def verify (env : Env) (dc : Dc) (output : String) :
    List Act × Except String (Option Bool) :=
  match env.currentBoard with
  | none =>
    ([Act.notifyUserError "getBoardBuildString" noBoardSelectedMsg],
      Except.ok none)
  | some board =>
    if env.rootPath == "" then
      ([Act.showWarning "Cannot find the sketch file."], Except.ok none)
    else
      match resolveSketchStep env dc with
      | (tr, Except.error e) => (tr, Except.error e)
      | (tr, Except.ok sk) =>
        let tr := tr ++ [Act.saveAll]
        if env.builder == "command" then
          let r := verifyByCommand env sk
          (tr ++ r.1, Except.ok (some r.2))
        else if env.builder == "arduino-builder" then
          let r := verifyByArduinoBuilder env board.buildConfig sk output dc.output
          (tr ++ r.1, Except.ok (some r.2))
        else
          let r := verifyByArduinoIde env board.buildConfig sk output dc.output
          (tr ++ r.1, Except.ok (some r.2))

/-- Embeds uploadByCommand (arduino.ts:547-565): show, banner, close any open
serial monitor, save, spawn the user upload command; the rejection handler
catches a non-zero exit, so the function never throws. -/
def uploadByCommand (env : Env) (sketch port : String) :
    List Act × Except String Unit :=
  let pre := [Act.chanShow, Act.chanStart ("Upload sketch - " ++ sketch),
    Act.closeMonitor port, Act.saveAll,
    Act.spawnP (env.uploadCmdArgs.headD "") (env.uploadCmdArgs.drop 1)
      (some env.rootPath)]
  if env.exitCode == 0 then
    (pre ++ (if env.needRestore then [Act.openMonitor] else [])
      ++ [Act.chanEnd ("Uploaded the sketch: " ++ sketch ++ eol)], Except.ok ())
  else
    (pre ++ [Act.chanError ("Exit with code=" ++ toString env.exitCode ++ eol)],
      Except.ok ())

/-- Embeds uploadByArduinoIde (arduino.ts:620-642). -/
def uploadByArduinoIde (env : Env) (boardDescriptor sketch port : String) :
    List Act × Except String Unit :=
  let appPath := pathJoin2 env.rootPath sketch
  let args := ["--upload", "--board", boardDescriptor, "--port", port, appPath]
    ++ (if env.logLevel == "verbose" then ["--verbose"] else [])
  let pre := [Act.chanShow, Act.chanStart ("Upload sketch - " ++ sketch),
    Act.closeMonitor port, Act.saveAll,
    Act.spawnP env.settings.commandPath args none]
  if env.exitCode == 0 then
    (pre ++ (if env.needRestore then [Act.openMonitor] else [])
      ++ [Act.chanEnd ("Uploaded the sketch: " ++ sketch ++ eol)], Except.ok ())
  else
    (pre ++ [Act.chanError ("Exit with code=" ++ toString env.exitCode ++ eol)],
      Except.ok ())

/-- Embeds uploadByPattern (arduino.ts:567-618): resolve the platform
directory, load and merge platform.txt, the board prefix of boards.txt and
the tool overrides, abort when no output directory is configured, close the
monitor, run the port negotiation, store serial.port (which throws on the
undefined timeout value), look up the tool pattern and spawn it. -/
def uploadByPattern (env : Env) (board : Board) (dc : Dc) :
    List Act × Except String Unit :=
  match resolvePackagePath env.nfs env.settings.defaultPackagePath
      env.settings.packagePath board.packageName board.architecture with
  | none => ([Act.showError "Cannot found properties for upload."], Except.ok ())
  | some packageDir =>
    let loads := [Act.loadFile (pathJoin2 packageDir "platform.txt"),
      Act.loadFile (pathJoin2 packageDir "boards.txt")]
    let props := Properties.merge env.platformTxt
      ( Properties.extractWithPrefix env.boardsTxt board.boardId)
    let props := Properties.merge props env.settings.toolProperties
    if dc.output == "" then
      (loads ++ [Act.showError "No output folder specified. Cannot find binary."],
        Except.ok ())
    else
      let outputPath := pathJoin2 env.rootPath dc.output
      let props := (props.set "build.path" (some outputPath)).set
        "build.project_name" (some (baseName dc.sketch))
      let tool := jsAsStr (props.get "upload.tool")
      let verbose := env.logLevel == "verbose"
      let props :=
        if verbose then
          props.set "upload.verbose"
            (props.get ("tools." ++ tool ++ ".upload.params.verbose"))
        else
          props.set "upload.verbose"
            (props.get ("tools." ++ tool ++ ".upload.params.quiet"))
      let pre := loads ++ [Act.closeMonitor dc.port]
      match prepareUploadPort props dc.port env.polls verbose env.openResult with
      | (trP, Except.error e) => (pre ++ trP, Except.error e)
      | (trP, Except.ok actualUploadPort) =>
        match setSerialPort props actualUploadPort with
        | Except.error e => (pre ++ trP, Except.error e)
        | Except.ok props =>
          let cmd := props.get ("tools." ++ tool ++ ".upload.pattern")
          let args := env.splitArgs cmd
          let spawnAct := Act.spawnP (args.headD "") (args.drop 1)
            (some env.rootPath)
          if env.exitCode == 0 then
            (pre ++ trP ++ [spawnAct, Act.waitForPort dc.port]
              ++ (if env.needRestore then [Act.openMonitor] else [])
              ++ [Act.chanEnd ("Uploaded the sketch: " ++ dc.sketch ++ eol)],
              Except.ok ())
          else
            (pre ++ trP ++ [spawnAct,
              Act.chanError ("Exit with code=" ++ toString env.exitCode ++ eol)],
              Except.ok ())

/-- Embeds upload (arduino.ts:95-124): board check, root check, sketch
resolution, port check, pause the hotplug listener, dispatch the strategy,
resume the listener. The resume is not inside a try/finally: a strategy that
throws leaves the function through the await, skipping the resume. -/
def upload (env : Env) (dc : Dc) : List Act × Except String Unit :=
  match env.currentBoard with
  | none =>
    ([Act.notifyUserError "getBoardBuildString" noBoardSelectedMsg],
      Except.ok ())
  | some board =>
    if env.rootPath == "" then
      ([Act.showWarning "Cannot find the sketch file."], Except.ok ())
    else
      match resolveSketchStep env dc with
      | (tr, Except.error e) => (tr, Except.error e)
      | (tr, Except.ok sk) =>
        if dc.port == "" then
          (tr ++ [Act.showError "Please specify the upload serial port."],
            Except.ok ())
        else
          let r :=
            if env.builder == "command" then uploadByCommand env sk dc.port
            else if env.builder == "arduino-builder" then
              uploadByPattern env board { dc with sketch := sk }
            else uploadByArduinoIde env board.buildConfig sk dc.port
          match r with
          | (trS, Except.ok _) =>
            (tr ++ [Act.pauseListening] ++ trS ++ [Act.resumeListening],
              Except.ok ())
          | (trS, Except.error e) =>
            (tr ++ [Act.pauseListening] ++ trS, Except.error e)

/-- Claim C1: for every board-package or library install operation, a
toolchain subprocess exit code of 1 is treated identically to exit code 0
(the same trace, hence the same success message and no surfaced error),
while any other non-zero exit code is reported as a failure carrying that
exit code and emits no success message. -/
theorem claimC1_install_exit_code_equivalence
    (cmd name arch ver lib lver : String) (c : Nat) :
    installBoard cmd name arch ver 1 = installBoard cmd name arch ver 0 ∧
    installLibrary cmd lib lver 1 = installLibrary cmd lib lver 0 ∧
    (∀ s, Act.chanError s ∉ installBoard cmd name arch ver 0) ∧
    (∀ s, Act.chanError s ∉ installLibrary cmd lib lver 0) ∧
    (c ≠ 0 → c ≠ 1 →
      Act.chanError ("Exit with code=" ++ toString c ++ eol) ∈
          installBoard cmd name arch ver c ∧
      (∀ s, Act.chanEnd s ∉ installBoard cmd name arch ver c) ∧
      Act.chanError ("Exit with code=" ++ toString c ++ eol) ∈
          installLibrary cmd lib lver c ∧
      (∀ s, Act.chanEnd s ∉ installLibrary cmd lib lver c)) := by
  refine ⟨rfl, rfl, ?_, ?_, ?_⟩
  · intro s
    simp only [installBoard]
    split_ifs <;> simp_all
  · intro s
    simp only [installLibrary]
    split_ifs <;> simp_all
  · intro h0 h1
    have hb0 : (c == 0) = false := by simp [h0]
    have hb1 : (c == 1) = false := by simp [h1]
    refine ⟨?_, ?_, ?_, ?_⟩
    · simp [installBoard, hb0, hb1]
    · intro s
      simp only [installBoard, hb0, hb1]
      split_ifs <;> simp_all
    · simp [installLibrary, hb0, hb1]
    · intro s
      simp only [installLibrary, hb0, hb1]
      split_ifs <;> simp_all

/-- Witness for claim C1 at a concrete package, library and exit code. -/
theorem claimC1_install_exit_code_equivalence_witness :
    installBoard "/ide/arduino" "esp32" "esp32" "" 1 =
        installBoard "/ide/arduino" "esp32" "esp32" "" 0 ∧
    Act.chanError ("Exit with code=" ++ toString 2 ++ eol) ∈
        installBoard "/ide/arduino" "esp32" "esp32" "" 2 :=
  ⟨(claimC1_install_exit_code_equivalence "/ide/arduino" "esp32" "esp32" ""
      "Servo" "" 2).1,
    ((claimC1_install_exit_code_equivalence "/ide/arduino" "esp32" "esp32" ""
      "Servo" "" 2).2.2.2.2 (by decide) (by decide)).1⟩

/-- Claim C6, counterexample: an install invoked with an empty package name
and no version is not interpreted as an index refresh — the emitted status
text announces installing a package, not updating the index. The sentinel the
source actually tests for is the name dummy (arduino.ts:248, 286). -/
theorem claimC6_counterexample :
    Act.chanStart "Update package index files..." ∉
        installBoard "/ide/arduino" "" "" "" 0 ∧
    Act.chanStart "Install package - ..." ∈
        installBoard "/ide/arduino" "" "" "" 0 ∧
    Act.chanStart "Update library index files..." ∉
        installLibrary "/ide/arduino" "" "" 0 := by
  refine ⟨by decide, by decide, by decide⟩

/-- Claim C6 as amended: invoking a board-package install with the sentinel
package name dummy and no architecture and no version (or a library install
with the name dummy and no version) is interpreted as an index refresh: the
status text announces updating the index files, while the success/failure
handling of the subprocess exit code is identical to a normal install (0 and
1 succeed, anything else is an error carrying the code). -/
theorem claimC6_dummy_is_index_refresh (cmd : String) (c : Nat) :
    (c = 0 ∨ c = 1 →
      installBoard cmd "dummy" "" "" c =
        [Act.chanShow, Act.chanStart "Update package index files...",
          Act.spawnP cmd ["--install-boards", "dummy"] none,
          Act.chanEnd "Updated package index files."] ∧
      installLibrary cmd "dummy" "" c =
        [Act.chanShow, Act.chanStart "Update library index files...",
          Act.spawnP cmd ["--install-library", "dummy"] none,
          Act.chanEnd "Updated library index files."]) ∧
    (c ≠ 0 → c ≠ 1 →
      installBoard cmd "dummy" "" "" c =
        [Act.chanShow, Act.chanStart "Update package index files...",
          Act.spawnP cmd ["--install-boards", "dummy"] none,
          Act.chanError ("Exit with code=" ++ toString c ++ eol)] ∧
      installLibrary cmd "dummy" "" c =
        [Act.chanShow, Act.chanStart "Update library index files...",
          Act.spawnP cmd ["--install-library", "dummy"] none,
          Act.chanError ("Exit with code=" ++ toString c ++ eol)]) := by
  constructor
  · rintro (rfl | rfl) <;> exact ⟨rfl, rfl⟩
  · intro h0 h1
    have hb0 : (c == 0) = false := by simp [h0]
    have hb1 : (c == 1) = false := by simp [h1]
    exact ⟨by simp [installBoard, hb0, hb1], by simp [installLibrary, hb0, hb1]⟩

/-- Witness for the amended claim C6 at concrete exit codes 1 and 2. -/
theorem claimC6_dummy_is_index_refresh_witness :
    installBoard "/ide/arduino" "dummy" "" "" 1 =
      [Act.chanShow, Act.chanStart "Update package index files...",
        Act.spawnP "/ide/arduino" ["--install-boards", "dummy"] none,
        Act.chanEnd "Updated package index files."] ∧
    installLibrary "/ide/arduino" "dummy" "" 2 =
      [Act.chanShow, Act.chanStart "Update library index files...",
        Act.spawnP "/ide/arduino" ["--install-library", "dummy"] none,
        Act.chanError ("Exit with code=" ++ toString 2 ++ eol)] :=
  ⟨((claimC6_dummy_is_index_refresh "/ide/arduino" 1).1 (Or.inr rfl)).1,
    ((claimC6_dummy_is_index_refresh "/ide/arduino" 2).2 (by decide) (by decide)).2⟩

/-- Filesystem in which the built-in candidate path exists as a regular file
(isDirectory() would return false) while a user-installed versioned platform
directory exists. -/
def nfsBuiltinFile : NodeFs :=
  { lstatIsDir := fun p => if p == "builtin/pkg/avr" then some false else none,
    readdir := fun p =>
      if p == "user/packages/pkg/hardware/avr" then some ["1.8.3"] else none }

/-- Claim C5, evaluation at the failing input: the built-in candidate exists
but is not a directory, yet resolvePackagePath returns it — arduino.ts:525
reads stat.isDirectory without invoking it, and the method reference is
truthy for every stat — whereas the specified resolution falls back to the
user-installed versioned directory. -/
theorem claimC5_builtin_file_still_wins :
    nfsBuiltinFile.lstatIsDir "builtin/pkg/avr" = some false ∧
    resolvePackagePath nfsBuiltinFile "builtin" "user" "pkg" "avr" =
      some "builtin/pkg/avr" ∧
    resolvePlatformPathSpec nfsBuiltinFile "builtin" "user" "pkg" "avr" =
      some "user/packages/pkg/hardware/avr/1.8.3" ∧
    resolvePackagePath nfsBuiltinFile "builtin" "user" "pkg" "avr" ≠
      resolvePlatformPathSpec nfsBuiltinFile "builtin" "user" "pkg" "avr" := by
  refine ⟨by decide, by decide, by decide, by decide⟩

/-- Property set enabling both the 1200bps touch and the reappearance wait. -/
def propsTouchWait : Properties :=
  ⟨[("upload.use_1200bps_touch", some "true"),
    ("upload.wait_for_upload_port", some "true")]⟩

/-- Enumeration history in which the configured port A is present before the
touch and every later poll is empty: no new device ever appears and the
original port never reappears, so the 10-second window elapses. -/
def pollsVanish : Nat → List String := fun i => if i == 0 then ["A"] else []

/-- Claim C2, evaluation at the failing input: when the wait runs its full
window with no discovery and no fallback, waitForUploadPort resolves
undefined (not null), the strict null test at arduino.ts:511 therefore does
not restore the configured port, prepareUploadPort returns undefined instead
of the original port A, and storing it at arduino.ts:602 throws a TypeError
instead of composing the command with serial.port = A. -/
theorem claimC2_timeout_returns_undefined_not_original_port :
    waitForUploadPort "A" (fun _ => ([] : List String)) ["A"] = none ∧
    (prepareUploadPort propsTouchWait "A" pollsVanish false (Except.ok ())).2 =
      Except.ok JsStr.undef ∧
    JsStr.undef ≠ JsStr.str "A" ∧
    setSerialPort Properties.empty JsStr.undef =
      Except.error "TypeError: cannot read startsWith of a non-string" := by
  refine ⟨by decide, rfl, by decide, rfl⟩

/-- Enumeration history for claim C3: the before snapshot is A and B; the
first poll shows only A (B dropped out), the second shows A and B again. -/
def pollsBracket : Nat → List String :=
  fun i => if i == 0 then ["A"] else ["A", "B"]

/-- Claim C3, counterexample: the negotiator does not compare against the
before snapshot taken when the touch began — it compares against the previous
poll (arduino.ts:462 reassigns before) — so here it returns B even though B
is a member of the original before snapshot, where the claimed behavior would
have found no new device and eventually taken the 5-second fallback to the
original port A. -/
theorem claimC3_counterexample :
    waitForUploadPort "A" pollsBracket ["A", "B"] = some "B" ∧
    "B" ∈ ["A", "B"] := by
  refine ⟨by decide, by decide⟩

/-- Claim C3 as amended: during the port-reappearance wait the negotiator
returns the first device identifier present in a newly polled enumeration but
absent from the previous enumeration (the comparison set starts as the before
snapshot and is replaced by the latest poll on every iteration); in
particular, with the before set A and the first poll returning B, the
negotiated port equals B, and at the prepareUploadPort level (touch and wait
both enabled) the negotiated upload port is B. -/
theorem claimC3_first_new_against_previous_poll (u : String)
    (polls : Nat → List String) (before : List String) (i fuel : Nat)
    (p : String) :
    ((polls i).find? (fun q => !(before.contains q)) = some p →
      wfupGo u polls before i (fuel + 1) = some p) ∧
    ((polls i).find? (fun q => !(before.contains q)) = none →
      (decide (5000 ≤ (i + 1) * 250) && (polls i).contains u) = false →
      wfupGo u polls before i (fuel + 1) = wfupGo u polls (polls i) (i + 1) fuel) ∧
    (∀ a b : String, a ≠ b →
      waitForUploadPort u (fun _ => [b]) [a] = some b) ∧
    (∀ a b : String, a ≠ b →
      (prepareUploadPort propsTouchWait a
          (fun j => if j == 0 then [a] else [b]) false (Except.ok ())).2 =
        Except.ok (JsStr.str b)) := by
  have hstep : ∀ (bs : List String) (j g : Nat),
      wfupGo u polls bs j (g + 1) =
        match (polls j).find? (fun x => !(bs.contains x)) with
        | some x => some x
        | none =>
          if decide (5000 ≤ (j + 1) * 250) && (polls j).contains u then some u
          else wfupGo u polls (polls j) (j + 1) g := by
    intro bs j g
    rfl
  refine ⟨?_, ?_, ?_, ?_⟩
  · intro h
    rw [hstep before i fuel, h]
  · intro h hfb
    rw [hstep before i fuel, h, hfb]
    simp
  · intro a b hab
    simp [waitForUploadPort, wfupGo, List.find?, List.contains, hab,
      Ne.symm hab]
  · intro a b hab
    simp [prepareUploadPort, propsTouchWait, Properties.get, prepareTail,
      waitForUploadPort, wfupGo, List.find?, List.contains, hab,
      Ne.symm hab, finalizePort]

/-- Witness for the amended claim C3: concrete runs through each hypothesis. -/
theorem claimC3_first_new_against_previous_poll_witness :
    wfupGo "A" (fun _ => ["B"]) ["A"] 0 40 = some "B" ∧
    waitForUploadPort "A" (fun _ => ["B"]) ["A"] = some "B" ∧
    (prepareUploadPort propsTouchWait "A"
        (fun j => if j == 0 then ["A"] else ["B"]) false (Except.ok ())).2 =
      Except.ok (JsStr.str "B") :=
  ⟨(claimC3_first_new_against_previous_poll "A" (fun _ => ["B"]) ["A"] 0 39 "B").1
      (by decide),
    (claimC3_first_new_against_previous_poll "A" (fun _ => ["B"]) ["A"] 0 0 "B").2.2.1
      "A" "B" (by decide),
    (claimC3_first_new_against_previous_poll "A" (fun _ => ["B"]) ["A"] 0 0 "B").2.2.2
      "A" "B" (by decide)⟩

/-- Trace of prepareTail is one of the two fixed delay lists. -/
theorem prepareTail_trace (w : Bool) (d : String) (b : List String)
    (polls : Nat → List String) :
    (prepareTail w d b polls).1 = [Act.delay 250, Act.delay 400] ∨
    (prepareTail w d b polls).1 = [Act.delay 400] := by
  simp only [prepareTail]
  split
  · exact Or.inl rfl
  · exact Or.inr rfl

/-- Claim C7: during the 1200bps touch reset, whenever the serial port open
is attempted the stop runs as well — the try/finally at arduino.ts:497-501 —
and an open failure still stops the port before the error propagates out of
prepareUploadPort. -/
theorem claimC7_touch_close_always_runs (props : Properties) (dcPort : String)
    (polls : Nat → List String) (verbose : Bool) (r : Except String Unit) :
    (Act.openPort dcPort 1200 ∈ (prepareUploadPort props dcPort polls verbose r).1 →
      Act.stopPort ∈ (prepareUploadPort props dcPort polls verbose r).1) ∧
    (∀ e, r = Except.error e →
      props.get "upload.use_1200bps_touch" = some "true" →
      (polls 0).contains dcPort = true →
      Act.stopPort ∈ (prepareUploadPort props dcPort polls verbose r).1 ∧
      (prepareUploadPort props dcPort polls verbose r).2 = Except.error e) := by
  constructor
  · intro hmem
    have hpt := prepareTail_trace
      (props.get "upload.wait_for_upload_port" == some "true") dcPort
      (polls 0) polls
    cases r with
    | error e =>
      simp only [prepareUploadPort] at hmem ⊢
      split at hmem
      · split at hmem
        · simp_all
        · rcases hpt with h | h <;> simp_all
      · simp_all
    | ok u =>
      simp only [prepareUploadPort] at hmem ⊢
      split at hmem
      · split at hmem
        · simp_all
        · rcases hpt with h | h <;> simp_all
      · simp_all
  · intro e hr htouch hport
    have hT : (props.get "upload.use_1200bps_touch" == some "true") = true := by
      simp [htouch]
    have hp : dcPort ∈ polls 0 := by simpa using hport
    subst hr
    refine ⟨?_, ?_⟩
    · simp [prepareUploadPort, hT, hp]
    · simp [prepareUploadPort, hT, hp]

/-- Witness for claim C7: a failing open on a present port still stops the
port and propagates the open error. -/
theorem claimC7_touch_close_always_runs_witness :
    Act.stopPort ∈
      (prepareUploadPort propsTouchWait "A" (fun _ => ["A"]) false
        (Except.error "open failed")).1 ∧
    (prepareUploadPort propsTouchWait "A" (fun _ => ["A"]) false
        (Except.error "open failed")).2 = Except.error "open failed" :=
  (claimC7_touch_close_always_runs propsTouchWait "A" (fun _ => ["A"]) false
    (Except.error "open failed")).2 "open failed" rfl (by decide) (by decide)

/-- Claim C8: for every verify strategy, a non-zero exit code of the spawned
toolchain subprocess is caught and surfaced as the boolean result false with
the exit code written to the output sink (the strategies return a plain
boolean, so nothing is re-thrown), and a zero exit code yields true. -/
theorem claimC8_verify_strategies_normalize_exit (env : Env)
    (bd sk outputArg dcOutput : String) :
    (env.exitCode = 0 →
      (verifyByCommand env sk).2 = true ∧
      (verifyByArduinoBuilder env bd sk outputArg dcOutput).2 = true ∧
      (verifyByArduinoIde env bd sk outputArg dcOutput).2 = true) ∧
    (env.exitCode ≠ 0 →
      (verifyByCommand env sk).2 = false ∧
      Act.chanError ("Exit with code=" ++ toString env.exitCode ++ eol) ∈
        (verifyByCommand env sk).1 ∧
      (verifyByArduinoBuilder env bd sk outputArg dcOutput).2 = false ∧
      Act.chanError ("Exit with code=" ++ toString env.exitCode ++ eol) ∈
        (verifyByArduinoBuilder env bd sk outputArg dcOutput).1 ∧
      (verifyByArduinoIde env bd sk outputArg dcOutput).2 = false ∧
      Act.chanError ("Exit with code=" ++ toString env.exitCode ++ eol) ∈
        (verifyByArduinoIde env bd sk outputArg dcOutput).1) := by
  constructor
  · intro h0
    have hb : (env.exitCode == 0) = true := by simp [h0]
    exact ⟨by simp [verifyByCommand, hb], by simp [verifyByArduinoBuilder, hb],
      by simp [verifyByArduinoIde, hb]⟩
  · intro h0
    have hb : (env.exitCode == 0) = false := by simp [h0]
    refine ⟨by simp [verifyByCommand, hb], ?_, by simp [verifyByArduinoBuilder, hb],
      ?_, by simp [verifyByArduinoIde, hb], ?_⟩
    · simp [verifyByCommand, hb]
    · simp [verifyByArduinoBuilder, hb]
    · simp [verifyByArduinoIde, hb]

/-- Concrete collaborator environment with a failing subprocess (exit 2). -/
def envExit2 : Env :=
  { settings :=
      { arduinoPath := "/ide", packagePath := "/user",
        defaultPackagePath := "/ide/hardware", sketchbookPath := "/sb",
        commandPath := "/ide/arduino", builderPath := "/ide/arduino-builder",
        toolProperties := Properties.empty },
    currentBoard := some
      { buildConfig := "pkg:avr:uno", packageName := "pkg",
        architecture := "avr", boardId := "uno" },
    rootPath := "/r", builder := "", logLevel := "info",
    uploadCmdArgs := [], verifyCmdArgs := ["make", "verify"],
    fileExists := fun _ => true, dirExists := fun _ => false,
    nfs := { lstatIsDir := fun _ => none, readdir := fun _ => none },
    platformTxt := Properties.empty, boardsTxt := Properties.empty,
    resolvedSketch := "", polls := fun _ => [],
    openResult := Except.ok (),
    splitArgs := fun c => (jsAsStr c).splitOn " ",
    needRestore := false, exitCode := 2 }

/-- Witness for claim C8 at exit code 2: all three strategies fail with the
code logged. -/
theorem claimC8_verify_strategies_normalize_exit_witness :
    (verifyByCommand envExit2 "s.ino").2 = false ∧
    Act.chanError ("Exit with code=" ++ toString envExit2.exitCode ++ eol) ∈
      (verifyByArduinoIde envExit2 "pkg:avr:uno" "s.ino" "" "out").1 :=
  ⟨((claimC8_verify_strategies_normalize_exit envExit2 "pkg:avr:uno" "s.ino" ""
        "out").2 (by decide)).1,
    ((claimC8_verify_strategies_normalize_exit envExit2 "pkg:avr:uno" "s.ino" ""
        "out").2 (by decide)).2.2.2.2.2⟩

/-- Claim C9: when no board is selected, verify surfaces a user-configuration
error and returns immediately: the trace is exactly that notification — in
particular no subprocess is spawned, no save, no channel traffic and no other
side effect of the pipeline occurs. -/
theorem claimC9_verify_no_board_spawns_nothing (env : Env) (dc : Dc)
    (output : String) (h : env.currentBoard = none) :
    verify env dc output =
      ([Act.notifyUserError "getBoardBuildString" noBoardSelectedMsg],
        Except.ok none) ∧
    (∀ x a c, Act.spawnP x a c ∉ (verify env dc output).1) := by
  have hv : verify env dc output =
      ([Act.notifyUserError "getBoardBuildString" noBoardSelectedMsg],
        Except.ok none) := by
    simp [verify, h]
  refine ⟨hv, ?_⟩
  intro x a c
  rw [hv]
  simp

/-- Witness for claim C9 at a concrete environment with no board. -/
theorem claimC9_verify_no_board_spawns_nothing_witness :
    verify { envExit2 with currentBoard := none }
        { sketch := "s.ino", port := "A", output := "out" } "" =
      ([Act.notifyUserError "getBoardBuildString" noBoardSelectedMsg],
        Except.ok none) :=
  (claimC9_verify_no_board_spawns_nothing { envExit2 with currentBoard := none }
    { sketch := "s.ino", port := "A", output := "out" } "" rfl).1

/-- Claim C10: in the pattern-driven upload strategy, when the device context
has no output directory configured, the upload aborts with a user-visible
error after the properties of the resolved platform directory were loaded,
and before any serial-monitor closing, serial-port negotiation (enumeration
or 1200bps open) or subprocess invocation occurs. -/
theorem claimC10_no_output_aborts_before_side_effects (env : Env)
    (board : Board) (dc : Dc) (dir : String)
    (hres : resolvePackagePath env.nfs env.settings.defaultPackagePath
      env.settings.packagePath board.packageName board.architecture = some dir)
    (hout : dc.output = "") :
    uploadByPattern env board dc =
      ([Act.loadFile (pathJoin2 dir "platform.txt"),
        Act.loadFile (pathJoin2 dir "boards.txt"),
        Act.showError "No output folder specified. Cannot find binary."],
        Except.ok ()) ∧
    (∀ p, Act.closeMonitor p ∉ (uploadByPattern env board dc).1) ∧
    (∀ x a c, Act.spawnP x a c ∉ (uploadByPattern env board dc).1) ∧
    Act.listPorts ∉ (uploadByPattern env board dc).1 ∧
    (∀ p b, Act.openPort p b ∉ (uploadByPattern env board dc).1) := by
  have hb : (dc.output == "") = true := by simp [hout]
  have hu : uploadByPattern env board dc =
      ([Act.loadFile (pathJoin2 dir "platform.txt"),
        Act.loadFile (pathJoin2 dir "boards.txt"),
        Act.showError "No output folder specified. Cannot find binary."],
        Except.ok ()) := by
    simp [uploadByPattern, hres, hb]
  refine ⟨hu, ?_, ?_, ?_, ?_⟩ <;> rw [hu] <;> simp

/-- Witness for claim C10 at a concrete environment whose platform directory
resolves to the built-in path. -/
theorem claimC10_no_output_aborts_before_side_effects_witness :
    uploadByPattern
        { envExit2 with
            nfs := { lstatIsDir := fun p =>
                       if p == "/ide/hardware/pkg/avr" then some true else none,
                     readdir := fun _ => none } }
        { buildConfig := "pkg:avr:uno", packageName := "pkg",
          architecture := "avr", boardId := "uno" }
        { sketch := "s.ino", port := "A", output := "" } =
      ([Act.loadFile (pathJoin2 "/ide/hardware/pkg/avr" "platform.txt"),
        Act.loadFile (pathJoin2 "/ide/hardware/pkg/avr" "boards.txt"),
        Act.showError "No output folder specified. Cannot find binary."],
        Except.ok ()) :=
  (claimC10_no_output_aborts_before_side_effects
    { envExit2 with
        nfs := { lstatIsDir := fun p =>
                   if p == "/ide/hardware/pkg/avr" then some true else none,
                 readdir := fun _ => none } }
    { buildConfig := "pkg:avr:uno", packageName := "pkg",
      architecture := "avr", boardId := "uno" }
    { sketch := "s.ino", port := "A", output := "" }
    "/ide/hardware/pkg/avr" (by decide) rfl).1

/-- prepareUploadPort never emits the hotplug-listener resume action. -/
theorem resume_notin_prepareUploadPort (props : Properties) (d : String)
    (polls : Nat → List String) (vb : Bool) (r : Except String Unit) :
    Act.resumeListening ∉ (prepareUploadPort props d polls vb r).1 := by
  have hpt := prepareTail_trace
    (props.get "upload.wait_for_upload_port" == some "true") d (polls 0) polls
  cases r with
  | error e =>
    simp only [prepareUploadPort]
    split
    · split
      · split_ifs <;> simp
      · rcases hpt with h | h <;> simp [h]
    · simp
  | ok u =>
    simp only [prepareUploadPort]
    split
    · split
      · rcases hpt with h | h <;> split_ifs <;> simp [h]
      · rcases hpt with h | h <;> simp [h]
    · simp

/-- Pair form of the previous lemma, applicable to a match equation. -/
theorem resume_notin_prepare_pair (props : Properties) (d : String)
    (polls : Nat → List String) (vb : Bool) (r : Except String Unit)
    (trP : List Act) (res : Except String JsStr)
    (heq : prepareUploadPort props d polls vb r = (trP, res)) :
    Act.resumeListening ∉ trP := by
  have h := resume_notin_prepareUploadPort props d polls vb r
  rw [heq] at h
  exact h

/-- uploadByCommand never emits the hotplug-listener resume action. -/
theorem resume_notin_uploadByCommand (env : Env) (sk port : String) :
    Act.resumeListening ∉ (uploadByCommand env sk port).1 := by
  simp only [uploadByCommand]
  split_ifs <;> simp

/-- uploadByArduinoIde never emits the hotplug-listener resume action. -/
theorem resume_notin_uploadByArduinoIde (env : Env) (bd sk port : String) :
    Act.resumeListening ∉ (uploadByArduinoIde env bd sk port).1 := by
  simp only [uploadByArduinoIde]
  split_ifs <;> simp

/-- uploadByPattern never emits the hotplug-listener resume action. -/
theorem resume_notin_uploadByPattern (env : Env) (board : Board) (dc : Dc) :
    Act.resumeListening ∉ (uploadByPattern env board dc).1 := by
  simp only [uploadByPattern]
  split
  · simp
  · by_cases hout : (dc.output == "") = true
    · rw [if_pos hout]
      simp
    · rw [if_neg hout]
      split
      · rename_i trP e heq
        have h2 := resume_notin_prepare_pair _ _ _ _ _ _ _ heq
        simp [h2]
      · rename_i trP v heq
        have h2 := resume_notin_prepare_pair _ _ _ _ _ _ _ heq
        split
        · simp [h2]
        · split_ifs <;> simp [h2]

/-- Trace of the sketch-resolution step is empty or a single error message. -/
theorem resolveSketchStep_trace (env : Env) (dc : Dc) :
    (resolveSketchStep env dc).1 = [] ∨
    (resolveSketchStep env dc).1 =
      [Act.showError
        "No sketch file was found. Please specify the sketch in the arduino.json file"] := by
  simp only [resolveSketchStep]
  split_ifs <;> simp

/-- Shape analysis of upload (arduino.ts:95-124): every run either resumes
the listener after a pause with an ok result, never pauses at all (the abort
paths before dispatch), or ends in a thrown error with no resume emitted. -/
theorem upload_shape (env : Env) (dc : Dc) :
    ((upload env dc).2 = Except.ok () ∧
      Act.pauseListening ∈ (upload env dc).1 ∧
      Act.resumeListening ∈ (upload env dc).1) ∨
    ((upload env dc).2 = Except.ok () ∧
      Act.pauseListening ∉ (upload env dc).1) ∨
    ((∃ e, (upload env dc).2 = Except.error e) ∧
      Act.resumeListening ∉ (upload env dc).1) := by
  have hsk := resolveSketchStep_trace env dc
  simp only [upload]
  split
  · exact Or.inr (Or.inl (by simp))
  · rename_i board hb
    split
    · exact Or.inr (Or.inl (by simp))
    · split
      · rename_i tr e heq
        refine Or.inr (Or.inr ⟨⟨e, rfl⟩, ?_⟩)
        rw [heq] at hsk
        rcases hsk with h | h <;> simp_all
      · rename_i tr sk heq
        rw [heq] at hsk
        split
        · refine Or.inr (Or.inl ⟨rfl, ?_⟩)
          rcases hsk with h | h <;> simp_all
        · split
          · rename_i trS a heq2
            exact Or.inl ⟨rfl, by simp, by simp⟩
          · rename_i trS e heq2
            refine Or.inr (Or.inr ⟨⟨e, rfl⟩, ?_⟩)
            have h3 : Act.resumeListening ∉ trS := by
              by_cases h1 : (env.builder == "command") = true
              · rw [if_pos h1] at heq2
                have h4 := resume_notin_uploadByCommand env sk dc.port
                rw [heq2] at h4
                simpa using h4
              · rw [if_neg h1] at heq2
                by_cases h2 : (env.builder == "arduino-builder") = true
                · rw [if_pos h2] at heq2
                  have h4 := resume_notin_uploadByPattern env board
                    { sketch := sk, port := dc.port, output := dc.output }
                  rw [heq2] at h4
                  simpa using h4
                · rw [if_neg h2] at heq2
                  have h4 := resume_notin_uploadByArduinoIde env
                    board.buildConfig sk dc.port
                  rw [heq2] at h4
                  simpa using h4
            rcases hsk with h | h <;> simp_all

/-- Claim C4 as amended: the hotplug listener paused at strategy dispatch is
resumed on every exit path on which the dispatched strategy returns without
throwing (strategies catch subprocess failures internally, so those failure
paths do resume), but when the strategy throws an exception the resume at
arduino.ts:123 is skipped — the pause/resume pair is not a try/finally — and
the listener stays paused. -/
theorem claimC4_resume_only_without_throw (env : Env) (dc : Dc) :
    ((upload env dc).2 = Except.ok () → Act.pauseListening ∈ (upload env dc).1 →
      Act.resumeListening ∈ (upload env dc).1) ∧
    (∀ e, (upload env dc).2 = Except.error e →
      Act.resumeListening ∉ (upload env dc).1) := by
  rcases upload_shape env dc with ⟨_, _, h⟩ | ⟨_, h⟩ | ⟨⟨e2, he⟩, h⟩
  · exact ⟨fun _ _ => h, fun e herr => by simp_all⟩
  · exact ⟨fun _ hp => absurd hp h, fun e herr => by simp_all⟩
  · exact ⟨fun hok _ => by simp_all, fun e herr => h⟩

/-- Witness for the amended claim C4: an upload whose strategy catches its
subprocess failure internally (exit 2 under the direct-command strategy)
returns normally and does resume the listener. -/
theorem claimC4_resume_only_without_throw_witness :
    Act.resumeListening ∈
      (upload
        { envExit2 with
            builder := "command"
            uploadCmdArgs := ["make", "upload"] }
        { sketch := "s.ino", port := "A", output := "out" }).1 :=
  (claimC4_resume_only_without_throw
    { envExit2 with
        builder := "command"
        uploadCmdArgs := ["make", "upload"] }
    { sketch := "s.ino", port := "A", output := "out" }).1 (by rfl) (by decide)

/-- Platform properties enabling only the 1200bps touch. -/
def platTouch : Properties := ⟨[("upload.use_1200bps_touch", some "true")]⟩

/-- Environment in which the pattern-driven upload strategy throws: the
1200bps open of the configured port fails, and the error propagates out of
prepareUploadPort and uploadByPattern into upload. -/
def envOpenFail : Env :=
  { envExit2 with
      builder := "arduino-builder"
      nfs :=
        { lstatIsDir := fun p =>
            if p == "/ide/hardware/pkg/avr" then some true else none,
          readdir := fun _ => none }
      platformTxt := platTouch
      polls := fun _ => ["A"]
      openResult := Except.error "open failed"
      exitCode := 0 }

/-- Claim C4, counterexample: on this run the upload reaches strategy
dispatch (the listener pause is in the trace), the dispatched strategy throws
(the call rejects with the open error), and the resume action is NOT in the
trace — the listener is not resumed on this exit path, against the claim that
it is resumed on every exit path including throwing ones. -/
theorem claimC4_counterexample :
    Act.pauseListening ∈
      (upload envOpenFail { sketch := "s.ino", port := "A", output := "out" }).1 ∧
    Act.resumeListening ∉
      (upload envOpenFail { sketch := "s.ino", port := "A", output := "out" }).1 ∧
    (upload envOpenFail { sketch := "s.ino", port := "A", output := "out" }).2 =
      Except.error "open failed" := by
  refine ⟨by decide, by decide, rfl⟩
